import Mathlib

/-!
Verification of the AnkiApp flashcard generator core pipeline
(`src/core/card_formatter.py`, `src/core/csv_generator.py`,
`src/gui/main_window.py`) against its natural-language specification.

The Python data values (parsed JSON documents, entries, metadata
dictionaries) are modelled by `JValue`; Python dictionaries are ordered
association lists.  Functions that can raise in Python return `Except`.
-/

namespace AnkiGen

/-- A parsed JSON / Python value: string, integer, boolean, `None`,
list, or (ordered) dictionary. -/
inductive JValue where
  | jstr  : String → JValue
  | jint  : Int → JValue
  | jbool : Bool → JValue
  | jnull : JValue
  | jlist : List JValue → JValue
  | jobj  : List (String × JValue) → JValue

/-- An ordered Python dictionary with string keys. -/
abbrev Obj := List (String × JValue)

/-- Metadata dictionaries accumulated during the tree walk. -/
abbrev Meta := List (String × JValue)

/-- Key lookup in an ordered dictionary (`k in d` / `d[k]`). -/
def lookup (o : Obj) (k : String) : Option JValue :=
  match o with
  | [] => none
  | (k', v) :: rest => if k' = k then some v else lookup rest k

/-- `d.get(k, dflt)`. -/
def pyGet (o : Obj) (k : String) (dflt : JValue) : JValue :=
  (lookup o k).getD dflt

/-- Python truthiness of a value (`if value:`). -/
def truthy : JValue → Bool
  | .jstr s => decide (s ≠ "")
  | .jint n => decide (n ≠ 0)
  | .jbool b => b
  | .jnull => false
  | .jlist l => !l.isEmpty
  | .jobj o => !o.isEmpty

/-- Hex digit used by Python string repr escapes. -/
def hexDigit (n : Nat) : Char :=
  if n < 10 then Char.ofNat (48 + n) else Char.ofNat (87 + n)

/-- Python `repr` of one character of a string, given the chosen quote
character `q`. -/
def reprCharPy (q : Char) (c : Char) : List Char :=
  if c = '\\' then ['\\', '\\']
  else if c = q then ['\\', q]
  else if c = '\n' then ['\\', 'n']
  else if c = '\r' then ['\\', 'r']
  else if c = '\t' then ['\\', 't']
  else if c.toNat < 32 ∨ c.toNat = 127 then
    ['\\', 'x', hexDigit (c.toNat / 16), hexDigit (c.toNat % 16)]
  else [c]

/-- Python `repr` of a string: single quotes unless the string contains
a single quote and no double quote. -/
def pyReprStr (s : String) : String :=
  let q : Char := if s.data.contains '\x27' ∧ ¬ s.data.contains '\x22' then '\x22' else '\x27'
  String.mk (q :: (s.data.foldr (fun c acc => reprCharPy q c ++ acc) [q]))

mutual

/-- Python `repr` of a value. -/
def pyRepr : JValue → String
  | .jstr s => pyReprStr s
  | .jint n => toString n
  | .jbool b => if b then "True" else "False"
  | .jnull => "None"
  | .jlist l => "[" ++ pyReprList l ++ "]"
  | .jobj o => "\x7b" ++ pyReprObj o ++ "\x7d"

/-- `repr` of list elements, comma separated. -/
def pyReprList : List JValue → String
  | [] => ""
  | [v] => pyRepr v
  | v :: rest => pyRepr v ++ ", " ++ pyReprList rest

/-- `repr` of dictionary items, comma separated. -/
def pyReprObj : List (String × JValue) → String
  | [] => ""
  | [(k, v)] => pyReprStr k ++ ": " ++ pyRepr v
  | (k, v) :: rest => pyReprStr k ++ ": " ++ pyRepr v ++ ", " ++ pyReprObj rest

end

/-- Python `str` of a value: identity on strings, `repr` elsewhere. -/
def pyStr : JValue → String
  | .jstr s => s
  | v => pyRepr v

end AnkiGen

namespace AnkiGen

/-- Python whitespace test used by `str.strip` / `str.split`. -/
def isPyWS (c : Char) : Bool := c = ' ' ∨ c = '\t' ∨ c = '\n' ∨ c = '\r' ∨ c = '\x0b' ∨ c = '\x0c'

/-- `str.strip()`. -/
def pyStrip (s : String) : String :=
  String.mk (((s.data.dropWhile isPyWS).reverse.dropWhile isPyWS).reverse)

/-- `str.lower()` (ASCII fragment). -/
def pyLower (s : String) : String := String.mk (s.data.map Char.toLower)

/-- `str.capitalize()`: first character upper-cased, the rest lower-cased. -/
def pyCapitalize (s : String) : String :=
  match s.data with
  | [] => ""
  | c :: rest => String.mk (c.toUpper :: rest.map Char.toLower)

/-- Left-to-right non-overlapping replacement, fuelled to stay structural. -/
def listReplaceAux (pat rep : List Char) : Nat → List Char → List Char
  | _, [] => []
  | 0, l => l
  | fuel+1, c :: rest =>
    if pat.isPrefixOf (c :: rest) ∧ pat ≠ [] then
      rep ++ listReplaceAux pat rep fuel (rest.drop (pat.length - 1))
    else c :: listReplaceAux pat rep fuel rest

/-- `str.replace(pat, rep)` for a non-empty pattern. -/
def pyReplace (s pat rep : String) : String :=
  String.mk (listReplaceAux pat.data rep.data s.data.length s.data)

/-- Substring test on character lists. -/
def listIsInfix (pat : List Char) : List Char → Bool
  | [] => pat.isEmpty
  | c :: rest => pat.isPrefixOf (c :: rest) || listIsInfix pat rest

/-- Python `pat in s` on strings. -/
def strContainsSub (s pat : String) : Bool := listIsInfix pat.data s.data

/-- `s.split(',')[0]`. -/
def firstCommaSeg (s : String) : String := String.mk (s.data.takeWhile (· ≠ ','))

/-- `s.split()[0]`: first whitespace token, `none` when `s.split()` is empty
(where CPython raises `IndexError`). -/
def firstWsToken (s : String) : Option String :=
  let l := s.data.dropWhile isPyWS
  if l.isEmpty then none else some (String.mk (l.takeWhile (fun c => ¬ isPyWS c)))

/-!  ## LanguageFieldMapper (`card_formatter.py`)

No `languages.txt` ships with the repository, so the mapper uses its
default fallback table. -/

/-- Default language → candidate field name table
(`LanguageFieldMapper._load_language_mappings`). -/
def languageMappings : List (String × List String) :=
  [("german", ["German", "german", "target", "word", "term"]),
   ("english", ["English", "english", "native", "translation", "answer"]),
   ("dutch", ["Dutch", "dutch", "nederlands"]),
   ("spanish", ["Spanish", "spanish", "español"]),
   ("french", ["French", "french", "français"]),
   ("italian", ["Italian", "italian", "italiano"]),
   ("portuguese", ["Portuguese", "portuguese", "português"]),
   ("tagalog", ["Tagalog", "tagalog"])]

/-- Association-list lookup for the language table. -/
def lookupLang (k : String) : Option (List String) :=
  (languageMappings.find? (fun p => p.1 = k)).map Prod.snd

/-- First candidate field of one language present in the entry with a
truthy value (the inner loop of `detect_language_fields`). -/
def detectField (o : Obj) (fields : List String) : Option String :=
  fields.findSome? fun f =>
    match lookup o f with
    | some v => if truthy v then some f else none
    | none => none

/-- `LanguageFieldMapper.detect_language_fields`: languages present in the
entry, in table order, each with the first matching field name. -/
def detectLanguageFields (o : Obj) : List (String × String) :=
  languageMappings.filterMap fun p => (detectField o p.2).map (fun f => (p.1, f))

/-!  ## AnkiAppFormatter field mappings and mutation -/

/-- The mutable `field_mappings` dictionary of an `AnkiAppFormatter`
constructed with no configuration. -/
structure FieldMappings where
  target : List String
  native : List String
  example' : List String
  pronunciation : List String
  notes : List String
  tags : List String
deriving DecidableEq

/-- Base field mappings from `AnkiAppFormatter.__init__` (no config). -/
def baseFieldMappings : FieldMappings :=
  { target := ["target", "word", "term", "question", "front"]
    native := ["native", "translation", "answer", "meaning", "back"]
    example' := ["example", "examples", "example_sentence"]
    pronunciation := ["pronunciation", "phonetic", "sound"]
    notes := ["notes", "note", "memory_tip", "tip"]
    tags := ["tags", "Tags", "categories", "tag"] }

/-- `list.insert(0, f)` guarded by `f not in list`. -/
def insertIfAbsent (f : String) (l : List String) : List String :=
  if l.contains f then l else f :: l

/-- `list.append(f)` guarded by `f not in list`, folded over `fields`. -/
def appendAbsent (l : List String) (fields : List String) : List String :=
  fields.foldl (fun l f => if l.contains f then l else l ++ [f]) l

/-- `AnkiAppFormatter._detect_and_update_field_mappings` under the default
configuration (`target_language == 'Target'`, `native_language == 'English'`,
so both start as `None` locally). -/
def detectAndUpdate (fm : FieldMappings) (o : Obj) : FieldMappings :=
  let detected := detectLanguageFields o
  let nonEnglish := (detected.filter (fun p => p.1 ≠ "english")).map Prod.fst
  let eng := detected.any (fun p => p.1 = "english")
  let tl : Option String :=
    match nonEnglish, eng with
    | t :: _, true => some t
    | _, _ => none
  let nl : Option String :=
    match nonEnglish, eng with
    | _ :: _, true => some "english"
    | _, _ => none
  let fm := detected.foldl (fun fm p =>
    if tl = some p.1 ∨ (tl = none ∧ p.1 ≠ "english") then
      { fm with target := insertIfAbsent p.2 fm.target }
    else if nl = some p.1 ∨ (nl = none ∧ p.1 = "english") then
      { fm with native := insertIfAbsent p.2 fm.native }
    else fm) fm
  let fm :=
    match tl with
    | some t =>
      match lookupLang t with
      | some fields => { fm with target := appendAbsent fm.target fields }
      | none => fm
    | none => fm
  match nl with
  | some n =>
    match lookupLang n with
    | some fields => { fm with native := appendAbsent fm.native fields }
    | none => fm
  | none => fm

/-!  ## Field resolution (`AnkiAppFormatter._safe_get_string`) -/

/-- `AnkiAppFormatter._safe_get_string`: scan candidate keys in order and
return the first present truthy value as a string; non-empty lists join
with ", " (length > 1) or unwrap (length 1); anything falsy (and an empty
list) falls through to the next key. -/
def safeGetString (o : Obj) (keys : List String) (dflt : String) : String :=
  match keys with
  | [] => dflt
  | k :: rest =>
    match lookup o k with
    | none => safeGetString o rest dflt
    | some v =>
      match v with
      | .jlist [] => safeGetString o rest dflt
      | .jlist [x] => pyStr x
      | .jlist l => ", ".intercalate (l.map pyStr)
      | v => if truthy v then pyStr v else safeGetString o rest dflt

/-- `AnkiAppFormatter._safe_get_dict`. -/
def safeGetDict (o : Obj) (k : String) : Obj :=
  match lookup o k with
  | some (.jobj d) => d
  | _ => []

/-- Reference description of role resolution, written from the
specification's words (first present non-empty value; join / unwrap for
lists), for comparison with `safeGetString`. -/
def interpretValue : JValue → Option String
  | .jlist [] => none
  | .jlist [x] => some (pyStr x)
  | .jlist l => some (", ".intercalate (l.map pyStr))
  | v => if truthy v then some (pyStr v) else none

/-- Spec-style resolution: first key whose value interprets to a string. -/
def resolveFirst (o : Obj) (keys : List String) (dflt : String) : String :=
  ((keys.findSome? fun k => (lookup o k).bind interpretValue)).getD dflt

end AnkiGen

namespace AnkiGen

/-!  ## AnkiApp back side, tag synthesis and `format_entry` -/

/-- `metadata.get(k, dflt)`. -/
def metaGet (md : Meta) (k : String) (dflt : JValue) : JValue :=
  (lookup md k).getD dflt

/-- The Dutch connection string of `_format_clean_back`
(`show_connections` defaults to true). -/
def dutchConnection (o : Obj) : String :=
  if (lookup o "dutch_connection").isSome then
    safeGetString o ["dutch_connection"] ""
  else
    let conns := safeGetDict o "connections"
    if (lookup conns "dutch").isSome then safeGetString conns ["dutch"] "" else ""

/-- `AnkiAppFormatter._format_clean_back`. -/
def formatCleanBack (fm : FieldMappings) (o : Obj) (_md : Meta) : String :=
  let native := safeGetString o fm.native ""
  let part1 : List String :=
    if native ≠ "" then
      let dc := dutchConnection o
      if dc ≠ "" then [native ++ " (🇳🇱 Dutch: " ++ dc ++ ")"] else [native]
    else []
  let ex := safeGetString o fm.example' ""
  let part2 : List String := if ex ≠ "" then ["<i>Example: " ++ ex ++ "</i>"] else []
  let pr := safeGetString o fm.pronunciation ""
  let part3 : List String := if pr ≠ "" then ["<i>🔊 Pronunciation: " ++ pr ++ "</i>"] else []
  let nt := safeGetString o fm.notes ""
  let part4 : List String := if nt ≠ "" then ["<i>📝 Note: " ++ nt ++ "</i>"] else []
  "<br><br>".intercalate (part1 ++ part2 ++ part3 ++ part4)

/-- The topic-cleaning chain of `_generate_simple_tags`:
`split(',')[0].replace('&','and').replace(' and ',' ').strip().split()[0].capitalize()`.
Returns an error when the whitespace split is empty, where CPython raises
`IndexError`. -/
def cleanTopic (topicStr : String) : Except String String :=
  let r := pyStrip (pyReplace (pyReplace (firstCommaSeg topicStr) "&" "and") " and " " ")
  match firstWsToken r with
  | none => .error "IndexError"
  | some w => .ok (pyCapitalize w)

/-- `str(topic) if not isinstance(topic, list) else str(topic[0]) if topic else ''`. -/
def topicToStr : JValue → String
  | .jlist [] => ""
  | .jlist (x :: _) => pyStr x
  | v => pyStr v

/-- Append a cleaned entry tag if non-empty and not already present
(loop body of the entry-tag section of `_generate_simple_tags`). -/
def addEntryTag (acc : List String) (tg : JValue) : List String :=
  let ct := pyCapitalize (pyStrip (pyStr tg))
  if ct ≠ "" ∧ ¬ acc.contains ct then acc ++ [ct] else acc

/-- `AnkiAppFormatter._generate_simple_tags`. -/
def generateSimpleTags (o : Obj) (md : Meta) : Except String String := do
  let week := metaGet md "week" (metaGet md "unit" (.jstr ""))
  let t1 : List String := if truthy week then ["Week" ++ pyStr week] else []
  let topic := metaGet md "section_topic" (metaGet md "topic" (.jstr ""))
  let t2 : List String ←
    if truthy topic then do
      let c ← cleanTopic (topicToStr topic)
      pure (if c ≠ "" then [c] else [])
    else pure []
  let ct := safeGetString o ["content_type", "type"] "vocabulary"
  let t3 : List String := if pyLower ct ≠ "vocabulary" then [pyCapitalize ct] else []
  let base := t1 ++ t2 ++ t3
  let etags := pyGet o "tags" (.jlist [])
  let all :=
    if truthy etags then
      match etags with
      | .jlist l => (l.take 2).foldl addEntryTag base
      | v => addEntryTag base v
    else base
  pure (",".intercalate all)

/-- CSV headers of the AnkiApp dialect (`AnkiAppFormatter.get_headers`). -/
def ankiAppHeaders : List String := ["Front", "Back", "Tag", "", ""]

/-- `AnkiAppFormatter.format_entry` with the formatter's mutable
`field_mappings` threaded explicitly.  A non-dictionary entry raises
(`.keys()` on a non-dict) before any mutation; a metadata topic whose
cleaning chain hits an empty split raises `IndexError` after mutation. -/
def formatEntryS (fm : FieldMappings) (entry : JValue) (md : Meta) :
    Except String (List String) × FieldMappings :=
  match entry with
  | .jobj o =>
    let fm' := detectAndUpdate fm o
    let front := safeGetString o fm'.target "Unknown"
    let back := formatCleanBack fm' o md
    match generateSimpleTags o md with
    | .ok tags => (.ok [front, back, tags, "", ""], fm')
    | .error e => (.error e, fm')
  | _ => (.error "AttributeError: keys", fm)

/-!  ## CommonPhrasesFormatter (`card_formatter.py` version) -/

/-- `CommonPhrasesFormatter._detect_and_update_field_mappings`: the
inherited update, then phrase-specific fields pushed to rank 0 when the
entry has them. -/
def phrasesDetectAndUpdate (fm : FieldMappings) (o : Obj) : FieldMappings :=
  let fm := detectAndUpdate fm o
  let fm := ["question", "phrase"].foldl (fun fm f =>
    if (lookup o f).isSome ∧ ¬ fm.target.contains f then
      { fm with target := f :: fm.target } else fm) fm
  ["translation", "answer"].foldl (fun fm f =>
    if (lookup o f).isSome ∧ ¬ fm.native.contains f then
      { fm with native := f :: fm.native } else fm) fm

/-- Python `==` between a value and a string literal. -/
def jeqStr (v : JValue) (s : String) : Bool :=
  match v with
  | .jstr t => t = s
  | _ => false

/-- `CommonPhrasesFormatter._format_clean_back` (defaults:
`show_context_indicators` true, category glyph `💬`). -/
def phrasesCleanBack (fm : FieldMappings) (o : Obj) (md : Meta) : String :=
  let native := safeGetString o fm.native ""
  let part1 : List String := if native ≠ "" then ["💬 " ++ native] else []
  let dayTopic := metaGet md "section_topic" (metaGet md "topic" (.jstr ""))
  let part2 : List String :=
    if truthy dayTopic ∧ ¬ jeqStr dayTopic "No topic" then
      ["<i>Context: " ++ pyStr dayTopic ++ "</i>"] else []
  let nt := safeGetString o fm.notes ""
  let part3 : List String := if nt ≠ "" then ["<i>📝 " ++ nt ++ "</i>"] else []
  let week := metaGet md "week" (metaGet md "unit" (.jstr ""))
  let part4 : List String := if truthy week then ["<i>Level: A1 Week " ++ pyStr week ++ "</i>"] else []
  "<br><br>".intercalate (part1 ++ part2 ++ part3 ++ part4)

/-- Topic cleaning of `CommonPhrasesFormatter._generate_simple_tags`:
`replace('&','and').replace(' & ',' ').replace(',','').strip().split()[0].capitalize()`;
the topic must be a string (`.replace` on anything else raises). -/
def phrasesCleanTopic (topic : JValue) : Except String String :=
  match topic with
  | .jstr s =>
    let r := pyStrip (pyReplace (pyReplace (pyReplace s "&" "and") " & " " ") "," "")
    match firstWsToken r with
    | none => .error "IndexError"
    | some w => .ok (pyCapitalize w)
  | _ => .error "AttributeError: replace"

/-- `CommonPhrasesFormatter._generate_simple_tags`. -/
def phrasesSimpleTags (o : Obj) (md : Meta) : Except String String := do
  let week := metaGet md "week" (metaGet md "unit" (.jstr ""))
  let t1 : List String := if truthy week then ["Week" ++ pyStr week] else []
  let topic := metaGet md "section_topic" (metaGet md "topic" (.jstr ""))
  let t2 : List String ←
    if truthy topic then do
      let c ← phrasesCleanTopic topic
      pure (if c ≠ "" ∧ c ≠ "No" ∧ c ≠ "Topic" then [c] else [])
    else pure []
  let base := t1 ++ ["Phrases"] ++ t2
  let etags := pyGet o "Tags" (pyGet o "tags" (.jlist []))
  let all :=
    if truthy etags then
      match etags with
      | .jlist l => (l.take 2).foldl addEntryTag base
      | v => addEntryTag base v
    else base
  pure (",".intercalate all)

/-- CSV headers of the Phrases dialect (inherited from AnkiApp). -/
def phrasesHeaders : List String := ankiAppHeaders

/-- `format_entry` of the phrases formatter: the inherited AnkiApp body
dispatching to the overridden helpers. -/
def phrasesFormatEntryS (fm : FieldMappings) (entry : JValue) (md : Meta) :
    Except String (List String) × FieldMappings :=
  match entry with
  | .jobj o =>
    let fm' := phrasesDetectAndUpdate fm o
    let front := safeGetString o fm'.target "Unknown"
    let back := phrasesCleanBack fm' o md
    match phrasesSimpleTags o md with
    | .ok tags => (.ok [front, back, tags, "", ""], fm')
    | .error e => (.error e, fm')
  | _ => (.error "AttributeError: keys", fm)

/-!  ## Anki, Quizlet and Generic formatters -/

/-- `AnkiFormatter.get_headers`. -/
def ankiHeaders : List String := ["Front", "Back", "Tags"]

/-- `AnkiFormatter.format_entry`.  The front cell is the raw `target`
value; `" ".join` raises `TypeError` when a present `content_type` value
is not a string. -/
def ankiFormatEntry (o : Obj) (md : Meta) : Except String (List JValue) := do
  let front := pyGet o "target" (.jstr "")
  let native := pyGet o "native" (.jstr "")
  let parts1 : List String := if truthy native then ["<b>" ++ pyStr native ++ "</b>"] else []
  let ex := pyGet o "example" (.jstr "")
  let parts2 : List String := if truthy ex then ["<b>Example:</b> " ++ pyStr ex] else []
  let back := "<br>".intercalate (parts1 ++ parts2)
  let tags1 : List String ←
    match lookup o "content_type" with
    | some (.jstr s) => pure [s]
    | some _ => .error "TypeError: join"
    | none => pure []
  let unit := metaGet md "unit" .jnull
  let tags2 : List String := if truthy unit then ["Unit" ++ pyStr unit] else []
  pure [front, .jstr back, .jstr (" ".intercalate (tags1 ++ tags2))]

/-- `QuizletFormatter.get_headers` — the empty list. -/
def quizletHeaders : List String := []

/-- `QuizletFormatter.format_entry`: a two-cell `[term, definition]` row;
`" | ".join` raises `TypeError` when a truthy `native` value is not a
string. -/
def quizletFormatEntry (o : Obj) : Except String (List JValue) := do
  let term := pyGet o "target" (.jstr "")
  let native := pyGet o "native" (.jstr "")
  let parts1 : List String ←
    if truthy native then
      match native with
      | .jstr s => pure [s]
      | _ => .error "TypeError: join"
    else pure []
  let ex := pyGet o "example" (.jstr "")
  let parts2 : List String := if truthy ex then ["Example: " ++ pyStr ex] else []
  pure [term, .jstr (" | ".intercalate (parts1 ++ parts2))]

/-- `GenericFormatter.get_headers`: the caller-supplied header list. -/
def genericHeaders (customHeaders : List String) : List String := customHeaders

/-- `GenericFormatter.format_entry`: one stringified cell per header,
looked up through the caller's field mapping (defaulting to the
lower-cased header). -/
def genericFormatEntry (customHeaders : List String)
    (fieldMapping : List (String × String)) (o : Obj) : List String :=
  customHeaders.map fun h =>
    let key := ((fieldMapping.find? (fun p => p.1 = pyLower h)).map Prod.snd).getD (pyLower h)
    pyStr (pyGet o key (.jstr ""))

end AnkiGen

namespace AnkiGen

/-!  ## ContentTreeWalker (`GenericLanguageCSVGenerator._extract_entries`) -/

/-- Python iteration `for x in v`: lists yield elements, dictionaries
yield their keys, strings yield one-character strings, anything else
raises `TypeError`. -/
def pyIter : JValue → Except String (List JValue)
  | .jlist l => .ok l
  | .jobj o => .ok (o.map (fun p => .jstr p.1))
  | .jstr s => .ok (s.data.map (fun c => .jstr (String.mk [c])))
  | _ => .error "TypeError: not iterable"

/-- Digits folded into a number. -/
def digitsToNat (l : List Char) : Nat :=
  l.foldl (fun n c => 10 * n + (c.toNat - 48)) 0

/-- `_extract_number_from_key`: the first run of decimal digits in the
key, defaulting to 1. -/
def extractNumberFromKey (key : String) : Int :=
  go key.data
where
  go : List Char → Int
    | [] => 1
    | c :: rest =>
      if c.isDigit then Int.ofNat (digitsToNat (c :: rest.takeWhile Char.isDigit))
      else go rest

/-- `GenericLanguageCSVGenerator._detect_content_type` with an empty
source path.  `data.get('days', {}).values()` raises `AttributeError`
when `days` is bound to a non-dictionary. -/
def detectContentType (data : Obj) : Except String String :=
  let dataStr := pyLower (pyRepr (.jobj data))
  if strContainsSub dataStr "phrases" then .ok "phrases"
  else
    match lookup data "days" with
    | some (.jobj days) =>
      if days.any (fun p => strContainsSub (pyStr p.2) "phrases") then .ok "phrases"
      else detectRest data dataStr
    | some _ => .error "AttributeError: values"
    | none => detectRest data dataStr
where
  detectRest (data : Obj) (dataStr : String) : Except String String :=
    if (lookup data "total_phrases").isSome then .ok "phrases"
    else if jeqStr (pyGet data "content_type" .jnull) "phrases" then .ok "phrases"
    else if strContainsSub dataStr "grammar" ∨ jeqStr (pyGet data "content_type" .jnull) "grammar" then
      .ok "grammar"
    else .ok "vocabulary"

/-- The base metadata dictionary built at the top of `_extract_entries`. -/
def baseMetadata (data : Obj) (contentType : String) : Meta :=
  [("target_language", pyGet data "target_language" (pyGet data "language" (.jstr ""))),
   ("native_language", pyGet data "native_language" (.jstr "english")),
   ("content_type", .jstr contentType),
   ("topic", pyGet data "topic" (pyGet data "title" (.jstr ""))),
   ("level", pyGet data "level" (pyGet data "difficulty" (.jstr ""))),
   ("source", pyGet data "source" (.jstr "")),
   ("week", pyGet data "week" (.jint 1))]

/-- `dict.__setitem__`: replace in place or append. -/
def dictSet (m : Meta) (k : String) (v : JValue) : Meta :=
  if m.any (fun p => p.1 = k) then m.map (fun p => if p.1 = k then (k, v) else p)
  else m ++ [(k, v)]

/-- `dict.update` with an ordered literal. -/
def dictUpdate (m : Meta) (kvs : List (String × JValue)) : Meta :=
  kvs.foldl (fun m p => dictSet m p.1 p.2) m

/-- The first of `phrases`/`entries`/`words`/`items` present in a unit or
sub-section, defaulting to an empty list. -/
def collFirst (u : Obj) : JValue :=
  match lookup u "phrases" with
  | some v => v
  | none =>
    match lookup u "entries" with
    | some v => v
    | none =>
      match lookup u "words" with
      | some v => v
      | none => pyGet u "items" (.jlist [])

/-- `.items()` / attribute access on a value that must be a dictionary. -/
def asObj : JValue → Except String Obj
  | .jobj o => .ok o
  | _ => .error "AttributeError: not a dict"

/-- The root container scan: the first of
`units, weeks, days, lessons, sections, chapters` present. -/
def firstContainer (data : Obj) : Option JValue :=
  ["units", "weeks", "days", "lessons", "sections", "chapters"].findSome?
    (fun k => lookup data k)

/-- One sub-section (`days`/`lessons`/`sections` child) of a unit. -/
def subSection (unitMd : Meta) (p : String × JValue) :
    Except String (List (JValue × Meta)) := do
  let sd ← asObj p.2
  let smd := dictUpdate unitMd
    [("section", .jint (extractNumberFromKey p.1)),
     ("section_name", .jstr p.1),
     ("section_topic", pyGet sd "topic" (pyGet sd "title" (.jstr "")))]
  let es ← pyIter (collFirst sd)
  pure (es.map (fun e => (e, smd)))

/-- One unit of the root container: its own collection, then every
matching sub-container type (`days`, `lessons`, `sections` — the source
has no `break` in this inner loop). -/
def unitEntries (baseMd : Meta) (p : String × JValue) :
    Except String (List (JValue × Meta)) := do
  let u ← asObj p.2
  let umd := dictUpdate baseMd
    [("unit", .jint (extractNumberFromKey p.1)),
     ("unit_name", .jstr p.1),
     ("unit_topic", pyGet u "topic" (pyGet u "title" (.jstr "")))]
  let es ← pyIter (collFirst u)
  let own := es.map (fun e => (e, umd))
  ["days", "lessons", "sections"].foldlM (fun acc sk =>
    match lookup u sk with
    | none => pure acc
    | some sv => do
      let so ← asObj sv
      so.foldlM (fun acc sp => do
        let pairs ← subSection umd sp
        pure (acc ++ pairs)) acc) own

/-- `GenericLanguageCSVGenerator._extract_entries`. -/
def extractEntries (data : Obj) : Except String (List (JValue × Meta)) := do
  let ct ← detectContentType data
  let baseMd := baseMetadata data ct
  match lookup data "entries" with
  | some v => do
    let l ← pyIter v
    pure (l.map (fun e => (e, baseMd)))
  | none =>
  match lookup data "words" with
  | some v => do
    let l ← pyIter v
    pure (l.map (fun e => (e, baseMd)))
  | none =>
  match lookup data "items" with
  | some v => do
    let l ← pyIter v
    pure (l.map (fun e => (e, baseMd)))
  | none =>
    match firstContainer data with
    | none => pure []
    | some cv => do
      let co ← asObj cv
      co.foldlM (fun acc up => do
        let pairs ← unitEntries baseMd up
        pure (acc ++ pairs)) []

/-!  ## CsvEmitter (`GenericLanguageCSVGenerator._write_csv`) -/

/-- The row loop of `_write_csv` with an `AnkiAppFormatter`: each entry is
formatted with the shared, mutating formatter; a row whose formatting
raises is skipped, every other row is written in order, and the internal
`success_count` is incremented.  The function's Python result is only the
file path — the written rows and the success counter are the observables. -/
def writeCsvRows (fm : FieldMappings) :
    List (JValue × Meta) → List (List String) × Nat × FieldMappings
  | [] => ([], 0, fm)
  | (e, md) :: rest =>
    match formatEntryS fm e md with
    | (.ok row, fm') =>
      let (rows, n, fmEnd) := writeCsvRows fm' rest
      (row :: rows, n + 1, fmEnd)
    | (.error _, fm') => writeCsvRows fm' rest

/-!  ## CSV escaping (`MainWindow._escape_csv_row`) -/

/-- `field_str.replace('"', '""')` on the character level. -/
def doubleQuotesChars : List Char → List Char
  | [] => []
  | c :: rest =>
    if c = '\x22' then '\x22' :: '\x22' :: doubleQuotesChars rest
    else c :: doubleQuotesChars rest

/-- The characters that trigger quoting in `_escape_csv_row`. -/
def csvQuoteChars : List Char := [',', '\x22', '\n', '\r', '<', '>']

/-- `MainWindow._escape_csv_row`, one field: double internal quotes, then
wrap in quotes when the (escaped) field contains a comma, quote, newline,
carriage return or angle bracket. -/
def escapeCsvField (s : String) : String :=
  let esc := doubleQuotesChars s.data
  if csvQuoteChars.any (fun c => esc.contains c) then
    String.mk ('\x22' :: esc ++ ['\x22'])
  else String.mk esc

/-- `MainWindow._escape_csv_row`: escaped fields joined with commas. -/
def escapeCsvRow (row : List String) : String :=
  ",".intercalate (row.map escapeCsvField)

end AnkiGen

namespace AnkiGen

/-!  ## Supporting lemmas -/

/-- A successful lookup returns a binding of the dictionary. -/
theorem lookup_mem {o : Obj} {k : String} {v : JValue} (h : lookup o k = some v) :
    (k, v) ∈ o := by
  induction o with
  | nil => simp [lookup] at h
  | cons p rest ih =>
    unfold lookup at h
    by_cases hk : p.1 = k
    · simp [hk] at h
      have hp : p = (k, v) := by
        cases p
        simp_all
      rw [hp]
      exact List.mem_cons_self _ _
    · simp [hk] at h
      exact List.mem_cons_of_mem _ (ih h)

/-- When every value of the entry is falsy, no candidate field is
detected. -/
theorem detectField_eq_none {o : Obj} (hfalsy : ∀ p ∈ o, truthy p.2 = false)
    (fields : List String) : detectField o fields = none := by
  induction fields with
  | nil => rfl
  | cons f rest ih =>
    unfold detectField at ih ⊢
    rw [List.findSome?_cons]
    cases hl : lookup o f with
    | none => simpa using ih
    | some v =>
      have : truthy v = false := hfalsy _ (lookup_mem hl)
      simpa [this] using ih

/-- When every value of the entry is falsy, no language is detected. -/
theorem detectLanguageFields_eq_nil {o : Obj} (hfalsy : ∀ p ∈ o, truthy p.2 = false) :
    detectLanguageFields o = [] := by
  unfold detectLanguageFields
  rw [List.filterMap_eq_nil_iff]
  intro p _
  simp [detectField_eq_none hfalsy]

/-- When every value of the entry is falsy, the field-mapping mutation is
the identity. -/
theorem detectAndUpdate_eq_self {o : Obj} (hfalsy : ∀ p ∈ o, truthy p.2 = false)
    (fm : FieldMappings) : detectAndUpdate fm o = fm := by
  unfold detectAndUpdate
  rw [detectLanguageFields_eq_nil hfalsy]
  rfl

/-- When every value of the entry is falsy, resolution falls through every
candidate key to the default. -/
theorem safeGetString_eq_default {o : Obj} (hfalsy : ∀ p ∈ o, truthy p.2 = false)
    (keys : List String) (dflt : String) : safeGetString o keys dflt = dflt := by
  induction keys with
  | nil => rfl
  | cons k rest ih =>
    unfold safeGetString
    cases hl : lookup o k with
    | none => exact ih
    | some v =>
      have hv : truthy v = false := hfalsy _ (lookup_mem hl)
      cases v with
      | jlist l =>
        cases l with
        | nil => exact ih
        | cons x xs => simp [truthy] at hv
      | jstr s => simpa [hv] using ih
      | jint n => simpa [hv] using ih
      | jbool b => simpa [hv] using ih
      | jnull => simpa [hv] using ih
      | jobj d => simpa [hv] using ih

end AnkiGen

namespace AnkiGen

/-- The code's role resolution agrees with the first-hit description. -/
theorem safeGetString_eq_resolveFirst (o : Obj) (keys : List String) (dflt : String) :
    safeGetString o keys dflt = resolveFirst o keys dflt := by
  induction keys with
  | nil => rfl
  | cons k rest ih =>
    unfold safeGetString resolveFirst
    rw [List.findSome?_cons]
    cases hl : lookup o k with
    | none => simpa [resolveFirst] using ih
    | some v =>
      cases v with
      | jlist l =>
        cases l with
        | nil => simpa [interpretValue, resolveFirst] using ih
        | cons x xs => cases xs <;> simp [interpretValue]
      | jstr t =>
        by_cases ht : truthy (.jstr t) = true
        · simp [interpretValue, ht]
        · simp only [Bool.not_eq_true] at ht
          simpa [interpretValue, ht, resolveFirst] using ih
      | jint n =>
        by_cases ht : truthy (.jint n) = true
        · simp [interpretValue, ht]
        · simp only [Bool.not_eq_true] at ht
          simpa [interpretValue, ht, resolveFirst] using ih
      | jbool b =>
        by_cases ht : truthy (.jbool b) = true
        · simp [interpretValue, ht]
        · simp only [Bool.not_eq_true] at ht
          simpa [interpretValue, ht, resolveFirst] using ih
      | jnull => simpa [interpretValue, truthy, resolveFirst] using ih
      | jobj d =>
        by_cases ht : truthy (.jobj d) = true
        · simp [interpretValue, ht]
        · simp only [Bool.not_eq_true] at ht
          simpa [interpretValue, ht, resolveFirst] using ih

/-- Doubling quotes preserves which characters occur in a field. -/
theorem mem_doubleQuotesChars (c : Char) (l : List Char) :
    c ∈ doubleQuotesChars l ↔ c ∈ l := by
  induction l with
  | nil => simp [doubleQuotesChars]
  | cons a rest ih =>
    by_cases ha : a = '\x22' <;> simp [doubleQuotesChars, ha, ih]

/-- The same fact for the boolean `contains`. -/
theorem doubleQuotesChars_contains (c : Char) (l : List Char) :
    (doubleQuotesChars l).contains c = l.contains c := by
  simp [mem_doubleQuotesChars]

/-- Doubling quotes is the identity on a field with no quote character. -/
theorem doubleQuotesChars_eq_self {l : List Char} (h : l.contains '\x22' = false) :
    doubleQuotesChars l = l := by
  induction l with
  | nil => rfl
  | cons a rest ih =>
    rw [List.contains_cons, Bool.or_eq_false_iff] at h
    have ha : ¬ a = '\x22' := by
      intro hq
      rw [hq] at h
      simp at h
    simp [doubleQuotesChars, ha, ih h.2]

end AnkiGen

namespace AnkiGen

/-!  ## Claim C7 -/

/-- C7 (amended): in `MainWindow._escape_csv_row` a field is quoted iff it
contains a comma, double quote, newline, carriage return, `<` or `>`
(the source also quotes on `>` and `\r`, which the claim's
comma/quote/`<` restatement omits); internal quotes are doubled, and a
field with none of those characters is emitted verbatim. -/
theorem c7_quoting_rule (s : String) :
    (csvQuoteChars.any (fun c => s.data.contains c) = false → escapeCsvField s = s) ∧
    (csvQuoteChars.any (fun c => s.data.contains c) = true →
      escapeCsvField s = String.mk ('\x22' :: (doubleQuotesChars s.data ++ ['\x22']))) := by
  have hcond : csvQuoteChars.any (fun c => (doubleQuotesChars s.data).contains c)
      = csvQuoteChars.any (fun c => s.data.contains c) := by
    simp only [doubleQuotesChars_contains]
  constructor
  · intro h
    have hq : s.data.contains '\x22' = false := by
      rw [List.any_eq_false] at h
      have := h '\x22' (by decide)
      simpa using this
    have hesc := doubleQuotesChars_eq_self hq
    simp only [escapeCsvField, hcond, h, Bool.false_eq_true, if_false, hesc]
  · intro h
    simp only [escapeCsvField, hcond, h, if_true]
    simp

/-- C7 (counterexample): the field `">"` contains none of comma, double
quote, `<`, yet `_escape_csv_row` wraps it in quotes — the claim's
"a field containing none of these characters is never quoted" fails. -/
theorem c7_counterexample :
    escapeCsvField ">" = "\x22>\x22" ∧
    (">" : String).data.contains ',' = false ∧
    (">" : String).data.contains '\x22' = false ∧
    (">" : String).data.contains '<' = false ∧
    ("\x22>\x22" : String) ≠ ">" :=
  ⟨rfl, by decide, by decide, by decide, by decide⟩

/-- C7 (witness): the quoting rule evaluated at a plain field and at a
field containing a comma. -/
theorem c7_witness :
    (csvQuoteChars.any (fun c => ("abc" : String).data.contains c) = false ∧
      escapeCsvField "abc" = "abc") ∧
    (csvQuoteChars.any (fun c => ("a,b" : String).data.contains c) = true ∧
      escapeCsvField "a,b" = String.mk ('\x22' :: (doubleQuotesChars ("a,b" : String).data ++ ['\x22']))) :=
  ⟨⟨by decide, (c7_quoting_rule "abc").1 (by decide)⟩,
   ⟨by decide, (c7_quoting_rule "a,b").2 (by decide)⟩⟩

end AnkiGen

namespace AnkiGen

/-!  ## Claim C8 -/

/-- C8 (amended): role resolution is total (it always returns a string)
and scans the ranked alias list, returning the first present truthy value
as a string — lists of length > 1 join with ", ", singleton lists unwrap,
empty lists and falsy values fall through — and the default when no alias
resolves.  Contrary to the claim, a non-empty dict value is not skipped:
it is returned as its Python `str`/`repr` (see the counterexample). -/
theorem c8_resolution_rule (o : Obj) (keys : List String) (dflt : String) :
    safeGetString o keys dflt = resolveFirst o keys dflt :=
  safeGetString_eq_resolveFirst o keys dflt

/-- C8 (counterexample): with `target` bound to the non-empty dict
`{'a': 'b'}` and `word` bound to `"hi"`, resolution over
`["target", "word"]` returns `str({'a': 'b'})` — the dict is neither
skipped (which would yield `"hi"`) nor empty. -/
theorem c8_counterexample :
    safeGetString [("target", .jobj [("a", .jstr "b")]), ("word", .jstr "hi")]
      ["target", "word"] "" = "\x7b'a': 'b'\x7d" ∧
    ("\x7b'a': 'b'\x7d" : String) ≠ "hi" ∧ ("\x7b'a': 'b'\x7d" : String) ≠ "" :=
  ⟨rfl, by decide, by decide⟩

end AnkiGen

namespace AnkiGen

/-!  ## Claim C10 -/

/-- First entry of the history-dependence pair: detected as German with
English, so `german` is inserted at rank 0 and `German` appended to the
target aliases of the shared formatter. -/
def e101 : JValue := .jobj [("german", .jstr "Haus"), ("english", .jstr "house")]

/-- Second entry: its `German` field is already present (appended at the
back) in a formatter that has seen `e101`, so no rank-0 insertion happens
and the lower-ranked `target` key wins instead. -/
def e102 : JValue := .jobj [("German", .jstr "Hund"), ("target", .jstr "dog-target")]

/-- C10 (confirmed): `format_entry` is history dependent — formatting
`e102` on a formatter that previously formatted `e101` yields front
`"dog-target"`, while a freshly constructed formatter yields front
`"Hund"`; same entry, same metadata, different rows. -/
theorem c10_history_dependence :
    (formatEntryS (formatEntryS baseFieldMappings e101 []).2 e102 []).1 =
      .ok ["dog-target", "", "", "", ""] ∧
    (formatEntryS baseFieldMappings e102 []).1 = .ok ["Hund", "", "", "", ""] ∧
    (["dog-target", "", "", "", ""] : List String) ≠ ["Hund", "", "", "", ""] :=
  ⟨rfl, rfl, by decide⟩

/-!  ## Claim C5 -/

/-- The Scenario B document. -/
def doc5 : Obj :=
  [("days", .jobj [("day_1", .jobj
    [("topic", .jstr "Greetings"),
     ("words", .jlist [.jobj [("german", .jstr "Hallo"), ("english", .jstr "Hello")]])])])]

/-- The single entry of Scenario B. -/
def entry5 : JValue := .jobj [("german", .jstr "Hallo"), ("english", .jstr "Hello")]

/-- The metadata the walker attaches to that entry: `days` is consumed as
the root container, so `day_1` is a *unit* — its topic lands in
`unit_topic`, and no `section_topic` key is ever written. -/
def md5 : Meta :=
  [("target_language", .jstr ""), ("native_language", .jstr "english"),
   ("content_type", .jstr "vocabulary"), ("topic", .jstr ""),
   ("level", .jstr ""), ("source", .jstr ""), ("week", .jint 1),
   ("unit", .jint 1), ("unit_name", .jstr "day_1"), ("unit_topic", .jstr "Greetings")]

/-- C5 (counterexample): extraction yields one pair, but its metadata has
no `section_topic` at all (the topic is under `unit_topic`), and the
formatted row's tag cell is `"Week1"`, not `"Week1,Greetings"` — the
topic tag is skipped because tag synthesis reads only
`section_topic`/`topic`, which are unset/empty here. -/
theorem c5_counterexample :
    extractEntries doc5 = .ok [(entry5, md5)] ∧
    lookup md5 "section_topic" = none ∧
    (formatEntryS baseFieldMappings entry5 md5).1 = .ok ["Hallo", "Hello", "Week1", "", ""] ∧
    ("Week1" : String) ≠ "Week1,Greetings" :=
  ⟨rfl, rfl, rfl, by decide⟩

/-- C5 (amended): Scenario B yields exactly one (entry, metadata) pair;
the metadata satisfies `unit_topic == "Greetings"` (not `section_topic`,
which is absent) and `week == 1`, and the synthesized tag string of the
formatted row is `"Week1"`. -/
theorem c5_scenario_b :
    extractEntries doc5 = .ok [(entry5, md5)] ∧
    lookup md5 "unit_topic" = some (.jstr "Greetings") ∧
    lookup md5 "section_topic" = none ∧
    lookup md5 "week" = some (.jint 1) ∧
    (formatEntryS baseFieldMappings entry5 md5).1 = .ok ["Hallo", "Hello", "Week1", "", ""] :=
  ⟨rfl, rfl, rfl, rfl, rfl⟩

/-!  ## Claim C9 -/

/-- C9 (amended): for every dictionary entry — in particular one with any
or all optional fields missing — `format_entry` returns a five-cell row
provided tag synthesis succeeds on the metadata, and when nothing in the
entry resolves (every value falsy, e.g. the empty entry) the front cell
degrades to `"Unknown"`.  Tag synthesis itself can raise `IndexError` for
a degenerate metadata topic (see the counterexample), so the unqualified
"never raises" fails. -/
theorem c9_degraded_row (o : Obj) (md : Meta) (t : String)
    (htags : generateSimpleTags o md = .ok t) :
    ∃ front back, (formatEntryS baseFieldMappings (.jobj o) md).1 =
        .ok [front, back, t, "", ""] ∧
      ((∀ p ∈ o, truthy p.2 = false) → front = "Unknown") := by
  refine ⟨safeGetString o (detectAndUpdate baseFieldMappings o).target "Unknown",
    formatCleanBack (detectAndUpdate baseFieldMappings o) o md, ?_, ?_⟩
  · simp [formatEntryS, htags]
  · intro hfalsy
    exact safeGetString_eq_default hfalsy _ _

/-- C9 (counterexample): the empty entry (all fields missing) with a
metadata topic of `","` makes `_generate_simple_tags` crash — the cleaned
topic strips to nothing and `split()[0]` raises `IndexError`, so
`format_entry` raises instead of returning a degraded row. -/
theorem c9_counterexample :
    (formatEntryS baseFieldMappings (.jobj []) [("topic", .jstr ",")]).1 =
      .error "IndexError" :=
  rfl

/-- C9 (witness): the degraded-row theorem evaluated at the empty entry
and empty metadata. -/
theorem c9_witness :
    generateSimpleTags [] [] = .ok "" ∧
    ∃ front back, (formatEntryS baseFieldMappings (.jobj []) []).1 =
        .ok [front, back, "", "", ""] ∧
      ((∀ p ∈ ([] : Obj), truthy p.2 = false) → front = "Unknown") :=
  ⟨rfl, c9_degraded_row [] [] "" rfl⟩

end AnkiGen

namespace AnkiGen

/-!  ## Claim C6 -/

/-- Counterexample entry for C6: it has `german` and `target` keys with
distinct non-empty values, but also a `dutch` key.  Dutch is detected
after German (table order) and is inserted at rank 0 *after* it, so it
ends up ahead of `german`. -/
def e6 : Obj := [("german", .jstr "Hallo"), ("dutch", .jstr "hoi"), ("target", .jstr "x")]

/-- C6 (counterexample): on `e6` — which contains both `german` and
`target` keys with distinct non-empty string values — resolving the
"target" role after detection returns the `dutch` value `"hoi"`, not the
`german` value `"Hallo"`. -/
theorem c6_counterexample :
    lookup e6 "german" = some (.jstr "Hallo") ∧
    lookup e6 "target" = some (.jstr "x") ∧
    ("Hallo" : String) ≠ "x" ∧ ("Hallo" : String) ≠ "" ∧ ("x" : String) ≠ "" ∧
    safeGetString e6 (detectAndUpdate baseFieldMappings e6).target "" = "hoi" ∧
    ("hoi" : String) ≠ "Hallo" :=
  ⟨rfl, rfl, by decide, by decide, by decide, rfl, by decide⟩

/-- C6 (amended): for every entry with a non-empty `german` value on
which detection finds German (via the `german` key) and *no other
language*, the detected field is promoted to rank 0, so resolving
"target" returns the `german` value; and running detection a second time
on the same entry leaves the field mappings — hence the resolved value —
unchanged. -/
theorem c6_target_promotion (o : Obj) (gv : String)
    (hdet : detectLanguageFields o = [("german", "german")])
    (hg : lookup o "german" = some (.jstr gv)) (hne : gv ≠ "") :
    safeGetString o (detectAndUpdate baseFieldMappings o).target "" = gv ∧
    detectAndUpdate (detectAndUpdate baseFieldMappings o) o =
      detectAndUpdate baseFieldMappings o := by
  have h1 : detectAndUpdate baseFieldMappings o =
      { baseFieldMappings with target := "german" :: baseFieldMappings.target } := by
    unfold detectAndUpdate
    rw [hdet]
    decide
  constructor
  · rw [h1]
    show safeGetString o ("german" :: baseFieldMappings.target) "" = gv
    unfold safeGetString
    rw [hg]
    simp [truthy, pyStr, hne]
  · rw [h1]
    unfold detectAndUpdate
    rw [hdet]
    decide

/-- C6 (witness): the promotion theorem evaluated on the entry
`{'german': 'Hallo', 'target': 'x'}`. -/
theorem c6_witness :
    detectLanguageFields [("german", .jstr "Hallo"), ("target", .jstr "x")] =
      [("german", "german")] ∧
    (safeGetString [("german", .jstr "Hallo"), ("target", .jstr "x")]
        (detectAndUpdate baseFieldMappings
          [("german", .jstr "Hallo"), ("target", .jstr "x")]).target "" = "Hallo" ∧
      detectAndUpdate
          (detectAndUpdate baseFieldMappings [("german", .jstr "Hallo"), ("target", .jstr "x")])
          [("german", .jstr "Hallo"), ("target", .jstr "x")] =
        detectAndUpdate baseFieldMappings [("german", .jstr "Hallo"), ("target", .jstr "x")]) :=
  ⟨rfl, c6_target_promotion _ "Hallo" rfl rfl (by decide)⟩

end AnkiGen

namespace AnkiGen

/-!  ## Claim C3 -/

/-- C3 (amended): for every document whose root binds `entries` to a flat
list of N elements, the walker yields exactly those N elements in order,
each paired with the root metadata — provided content-type detection does
not raise (it raises `AttributeError` when the root also binds `days` to
a non-dictionary and the document text nowhere contains "phrases"; see
the counterexample). -/
theorem c3_flat_entries (data : Obj) (l : List JValue) (ct : String)
    (hct : detectContentType data = .ok ct)
    (hl : lookup data "entries" = some (.jlist l)) :
    extractEntries data = .ok (l.map (fun e => (e, baseMetadata data ct))) := by
  unfold extractEntries
  rw [hct, hl]
  rfl

/-- Root object of the C3 counterexample: a perfectly flat one-entry
document that also carries a string-valued `days` key. -/
def doc3c : Obj := [("entries", .jlist [.jobj []]), ("days", .jstr "x")]

/-- C3 (counterexample): on `doc3c` — root object, flat `entries` list of
length 1 — `_extract_entries` raises `AttributeError` inside
`_detect_content_type` (`data.get('days', {}).values()` on a string)
before yielding anything, so no (entry, metadata) pairs are produced. -/
theorem c3_counterexample :
    extractEntries doc3c = .error "AttributeError: values" ∧
    ∀ pairs : List (JValue × Meta), extractEntries doc3c ≠ .ok pairs := by
  refine ⟨rfl, ?_⟩
  intro pairs h
  rw [show extractEntries doc3c = .error "AttributeError: values" from rfl] at h
  exact Except.noConfusion h

/-- C3 (witness): the flat-entries theorem evaluated on a two-entry
document. -/
theorem c3_witness :
    detectContentType [("entries", .jlist [.jstr "a", .jstr "b"])] = .ok "vocabulary" ∧
    extractEntries [("entries", .jlist [.jstr "a", .jstr "b"])] =
      .ok ([JValue.jstr "a", .jstr "b"].map (fun e =>
        (e, baseMetadata [("entries", .jlist [.jstr "a", .jstr "b"])] "vocabulary"))) :=
  ⟨rfl, c3_flat_entries _ _ _ rfl rfl⟩

end AnkiGen

namespace AnkiGen

/-!  ## Claim C4 -/

/-- `detectRest` always succeeds. -/
theorem detectRest_ok (data : Obj) (ds : String) :
    ∃ ct, detectContentType.detectRest data ds = .ok ct := by
  unfold detectContentType.detectRest
  split
  · exact ⟨_, rfl⟩
  · split
    · exact ⟨_, rfl⟩
    · split <;> exact ⟨_, rfl⟩

/-- Content-type detection succeeds whenever `days` is bound to a
dictionary. -/
theorem detectContentType_ok_of_days (data : Obj) (d : Obj)
    (hd : lookup data "days" = some (.jobj d)) :
    ∃ ct, detectContentType data = .ok ct := by
  simp only [detectContentType]
  rw [hd]
  by_cases h1 : strContainsSub (pyLower (pyRepr (.jobj data))) "phrases" = true
  · exact ⟨"phrases", by rw [if_pos h1]⟩
  · rw [if_neg h1]
    change ∃ ct, (if (d.any fun p => strContainsSub (pyStr p.2) "phrases") = true
      then Except.ok "phrases"
      else detectContentType.detectRest data (pyLower (pyRepr (.jobj data)))) = Except.ok ct
    by_cases h2 : (d.any fun p => strContainsSub (pyStr p.2) "phrases") = true
    · exact ⟨"phrases", by rw [if_pos h2]⟩
    · rw [if_neg h2]
      exact detectRest_ok data _

/-- Content-type detection succeeds whenever `days` is absent. -/
theorem detectContentType_ok_of_no_days (data : Obj)
    (hd : lookup data "days" = none) :
    ∃ ct, detectContentType data = .ok ct := by
  simp only [detectContentType]
  rw [hd]
  by_cases h1 : strContainsSub (pyLower (pyRepr (.jobj data))) "phrases" = true
  · exact ⟨"phrases", by rw [if_pos h1]⟩
  · rw [if_neg h1]
    exact detectRest_ok data _

/-- A document with both `days` and `lessons` containers at the root. -/
def c4RootDoc (l1 l2 : List JValue) : Obj :=
  [("days", .jobj [("d1", .jobj [("words", .jlist l1)])]),
   ("lessons", .jobj [("l1", .jobj [("words", .jlist l2)])])]

/-- A document whose single unit carries both `days` and `lessons`
sub-containers. -/
def c4UnitDoc (l1 l2 : List JValue) : Obj :=
  [("units", .jobj [("u1", .jobj
    [("days", .jobj [("d1", .jobj [("words", .jlist l1)])]),
     ("lessons", .jobj [("l1", .jobj [("words", .jlist l2)])])])])]

/-- C4 (amended): at the *root* level only the first matching container
type is processed — with both `days` and `lessons` present, only the
`days` entries are yielded — but at the *sub-container* level the source
has no `break`, so every matching sub-container type is processed: a unit
with both `days` and `lessons` yields the entries of both, in that
order. -/
theorem c4_container_priority (l1 l2 : List JValue) :
    (∃ ct, extractEntries (c4RootDoc l1 l2) =
      .ok (l1.map (fun e => (e,
        dictUpdate (baseMetadata (c4RootDoc l1 l2) ct)
          [("unit", .jint 1), ("unit_name", .jstr "d1"), ("unit_topic", .jstr "")])))) ∧
    (∃ ct, extractEntries (c4UnitDoc l1 l2) =
      .ok (l1.map (fun e => (e,
          dictUpdate (dictUpdate (baseMetadata (c4UnitDoc l1 l2) ct)
            [("unit", .jint 1), ("unit_name", .jstr "u1"), ("unit_topic", .jstr "")])
            [("section", .jint 1), ("section_name", .jstr "d1"), ("section_topic", .jstr "")])) ++
        l2.map (fun e => (e,
          dictUpdate (dictUpdate (baseMetadata (c4UnitDoc l1 l2) ct)
            [("unit", .jint 1), ("unit_name", .jstr "u1"), ("unit_topic", .jstr "")])
            [("section", .jint 1), ("section_name", .jstr "l1"), ("section_topic", .jstr "")])))) := by
  constructor
  · obtain ⟨ct, hct⟩ := detectContentType_ok_of_days (c4RootDoc l1 l2) _ rfl
    refine ⟨ct, ?_⟩
    unfold extractEntries
    rw [hct]
    rfl
  · obtain ⟨ct, hct⟩ := detectContentType_ok_of_no_days (c4UnitDoc l1 l2) rfl
    refine ⟨ct, ?_⟩
    unfold extractEntries
    rw [hct]
    rfl

/-- Entry living under the `days` sub-container. -/
def c4e1 : JValue := .jobj [("target", .jstr "eins")]

/-- Entry living under the `lessons` sub-container of the same unit. -/
def c4e2 : JValue := .jobj [("target", .jstr "zwei")]

/-- C4 (counterexample): in a unit carrying both `days` and `lessons`,
the entry under `lessons` is *also* yielded (the output is
`[c4e1, c4e2]`, not just `[c4e1]`), so "entries under every container
type other than the first match are ignored" is false at the
sub-container level. -/
theorem c4_counterexample :
    Except.map (fun ps => ps.map Prod.fst) (extractEntries (c4UnitDoc [c4e1] [c4e2])) =
      .ok [c4e1, c4e2] ∧
    pyStr c4e1 ≠ pyStr c4e2 :=
  ⟨rfl, by decide⟩

end AnkiGen

namespace AnkiGen

/-!  ## Claim C1 -/

/-- C1 (amended): every row that `format_entry` returns has exactly as
many cells as `get_headers()` for the AnkiApp (5), Phrases (5), Anki (3)
and Generic (N caller headers) formatters.  The Quizlet formatter
violates the contract: its rows have 2 cells but its header list is empty
(see the counterexample). -/
theorem c1_row_width :
    (∀ fm e md row fm', formatEntryS fm e md = (.ok row, fm') →
      row.length = ankiAppHeaders.length) ∧
    (∀ fm e md row fm', phrasesFormatEntryS fm e md = (.ok row, fm') →
      row.length = phrasesHeaders.length) ∧
    (∀ o md row, ankiFormatEntry o md = .ok row → row.length = ankiHeaders.length) ∧
    (∀ hs fmap o, (genericFormatEntry hs fmap o).length = (genericHeaders hs).length) := by
  refine ⟨?_, ?_, ?_, ?_⟩
  · intro fm e md row fm' h
    cases e <;> simp [formatEntryS] at h
    case jobj o =>
      cases htags : generateSimpleTags o md with
      | ok t =>
        rw [htags] at h
        simp at h
        rw [← h.1]
        rfl
      | error err =>
        rw [htags] at h
        simp at h
  · intro fm e md row fm' h
    cases e <;> simp [phrasesFormatEntryS] at h
    case jobj o =>
      cases htags : phrasesSimpleTags o md with
      | ok t =>
        rw [htags] at h
        simp at h
        rw [← h.1]
        rfl
      | error err =>
        rw [htags] at h
        simp at h
  · intro o md row h
    unfold ankiFormatEntry at h
    cases hct : lookup o "content_type" with
    | none =>
      rw [hct] at h
      rw [← Except.ok.inj h]
      rfl
    | some v =>
      rw [hct] at h
      cases v with
      | jstr t =>
        rw [← Except.ok.inj h]
        rfl
      | jint n => exact Except.noConfusion h
      | jbool b => exact Except.noConfusion h
      | jnull => exact Except.noConfusion h
      | jlist l => exact Except.noConfusion h
      | jobj d => exact Except.noConfusion h
  · intro hs fmap o
    simp [genericFormatEntry, genericHeaders]

/-- C1 (counterexample): the Quizlet formatter returns a two-cell row for
the empty entry while `get_headers()` is empty, so row length ≠ header
length. -/
theorem c1_counterexample :
    quizletFormatEntry [] = .ok [.jstr "", .jstr ""] ∧
    quizletHeaders.length = 0 ∧
    ([JValue.jstr "", .jstr ""] : List JValue).length ≠ quizletHeaders.length :=
  ⟨rfl, rfl, by decide⟩

/-- C1 (witness): the row-width theorem evaluated on concrete entries for
each of the four conforming formatters. -/
theorem c1_witness :
    (["Unknown", "", "", "", ""] : List String).length = ankiAppHeaders.length ∧
    (["Unknown", "", "Phrases", "", ""] : List String).length = phrasesHeaders.length ∧
    ([JValue.jstr "", .jstr "", .jstr ""] : List JValue).length = ankiHeaders.length ∧
    (genericFormatEntry ["Term", "Definition"] [] []).length =
      (genericHeaders ["Term", "Definition"]).length :=
  ⟨c1_row_width.1 baseFieldMappings (.jobj []) [] _ _ rfl,
   c1_row_width.2.1 baseFieldMappings (.jobj []) [] _ _ rfl,
   c1_row_width.2.2.1 [] [] _ rfl,
   c1_row_width.2.2.2 ["Term", "Definition"] [] []⟩

end AnkiGen

namespace AnkiGen

/-!  ## Claim C2 -/

/-- A well-formed vocabulary entry for the C2 batch. -/
def goodEntry (t n : String) : JValue := .jobj [("target", .jstr t), ("native", .jstr n)]

/-- The C2 batch: ten entries, the ones at positions 3 and 7 malformed
(not dictionaries, so `format_entry` raises on them). -/
def batch10 : List (JValue × Meta) :=
  [(goodEntry "t0" "n0", []), (goodEntry "t1" "n1", []), (goodEntry "t2" "n2", []),
   (.jstr "bad3", []),
   (goodEntry "t4" "n4", []), (goodEntry "t5" "n5", []), (goodEntry "t6" "n6", []),
   (.jint 0, []),
   (goodEntry "t8" "n8", []), (goodEntry "t9" "n9", [])]

/-- The same batch with the two malformed entries removed. -/
def batch8 : List (JValue × Meta) :=
  [(goodEntry "t0" "n0", []), (goodEntry "t1" "n1", []), (goodEntry "t2" "n2", []),
   (goodEntry "t4" "n4", []), (goodEntry "t5" "n5", []), (goodEntry "t6" "n6", []),
   (goodEntry "t8" "n8", []), (goodEntry "t9" "n9", [])]

/-- The eight rows `_write_csv` writes for `batch10`. -/
def c2Rows : List (List String) :=
  [["t0", "n0", "", "", ""], ["t1", "n1", "", "", ""], ["t2", "n2", "", "", ""],
   ["t4", "n4", "", "", ""], ["t5", "n5", "", "", ""], ["t6", "n6", "", "", ""],
   ["t8", "n8", "", "", ""], ["t9", "n9", "", "", ""]]

/-- C2 (amended): on the ten-entry batch whose entries at positions 3 and
7 raise, `_write_csv` still writes the other eight rows, in order, and
its internal success counter reaches 8; the two failures are skipped
without aborting the batch.  The function's result, however, is only the
file path — it reports no failure count (see the counterexample). -/
theorem c2_bulkhead :
    (writeCsvRows baseFieldMappings batch10).1 = c2Rows ∧
    (writeCsvRows baseFieldMappings batch10).2.1 = 8 ∧
    (∀ fm : FieldMappings, (formatEntryS fm (.jstr "bad3") []).1 = .error "AttributeError: keys") ∧
    (∀ fm : FieldMappings, (formatEntryS fm (.jint 0) []).1 = .error "AttributeError: keys") :=
  ⟨rfl, rfl, fun _ => rfl, fun _ => rfl⟩

/-- C2 (counterexample): the emitter's observable result on `batch10`
(rows written and success counter) is identical to its result on
`batch8`, although the two batches have 2 and 0 formatting failures
respectively — so the result of `_write_csv` cannot and does not report
`failure_count == 2`; the Python function returns only the file path. -/
theorem c2_counterexample :
    (writeCsvRows baseFieldMappings batch10).1 = (writeCsvRows baseFieldMappings batch8).1 ∧
    (writeCsvRows baseFieldMappings batch10).2.1 = (writeCsvRows baseFieldMappings batch8).2.1 ∧
    batch10.length = 10 ∧ batch8.length = 8 :=
  ⟨rfl, rfl, rfl, rfl⟩

end AnkiGen
